import Mathlib

/-!
Shallow embedding of the Multi-LLM Discussion orchestration engine
(`discussion.py`, `personas.py`, `llm_clients.py`, `config.py`, `main.py`).

Pure data and control flow are translated directly; the generation
backends are modelled as opaque functions that either return text or a
typed failure, mirroring the Python clients whose `generate` call either
returns a string or raises.
-/

namespace MultiLLM

/-- Errors raised by the Python code, as a typed sum.
`configurationError` models the `ValueError` raised by `create_client`
on an unknown provider (the specification's `ConfigurationError`);
`keyError` models a Python `KeyError`; `indexError` models the
`IndexError` from `list(...)[0]` on an empty dict; `generationFailure`
models any exception escaping a backend `generate` call;
`noTopicExit` models `main`'s error-print-and-exit when no topic is
provided. -/
inductive AppError where
  | configurationError (msg : String)
  | keyError (key : String)
  | indexError
  | generationFailure (msg : String)
  | noTopicExit
deriving DecidableEq, Repr

/-- Chat roles used in the history dicts built by `_build_chat_history`. -/
inductive Role where
  | user
  | assistant
deriving DecidableEq, Repr

/-- One `{"role": ..., "content": ...}` dict of the chat history. -/
structure ChatEntry where
  role : Role
  content : String
deriving DecidableEq, Repr

/-- `Message` dataclass from `discussion.py`. -/
structure Message where
  persona_key : String
  persona_name : String
  emoji : String
  content : String
  round_num : Nat
deriving DecidableEq, Repr, Inhabited

/-- A generation backend: `generate(system_prompt, messages, temperature)`
returning text or failing. The concrete Python clients (Ollama, Groq,
Google, HuggingFace) are external collaborators, so a client is an
opaque function of the request. -/
def Client : Type := String → List ChatEntry → Rat → Except AppError String

/-- Persona record from `personas.py` (`name`, `emoji`, `system_prompt`). -/
structure Persona where
  name : String
  emoji : String
  system_prompt : String
deriving DecidableEq, Repr

/-- `PERSONAS` dict from `personas.py`. The behavioral instruction texts
are abbreviated to their opening line; no engine behaviour inspects them,
they are passed opaquely to the backend. -/
def PERSONAS : String → Option Persona
  | "logical" => some
      { name := "Logical Thinker", emoji := "🧠",
        system_prompt := "You are participating in a casual group chat discussion with friends. Your thinking style is LOGICAL and STRUCTURED." }
  | "creative" => some
      { name := "Creative Thinker", emoji := "🎨",
        system_prompt := "You are participating in a casual group chat discussion with friends. Your thinking style is CREATIVE and IMAGINATIVE." }
  | "skeptical" => some
      { name := "Skeptical Thinker", emoji := "🤔",
        system_prompt := "You are participating in a casual group chat discussion with friends. Your thinking style is SKEPTICAL and QUESTIONING." }
  | "practical" => some
      { name := "Practical Thinker", emoji := "🔧",
        system_prompt := "You are participating in a casual group chat discussion with friends. Your thinking style is PRACTICAL and GROUNDED." }
  | "synthesizer" => some
      { name := "Neutral Synthesizer", emoji := "⚖️",
        system_prompt := "You are participating in a casual group chat discussion with friends. Your role is to be a NEUTRAL OBSERVER and SYNTHESIZER." }
  | _ => none

/-- `RESPONSE_ORDER` from `personas.py`. -/
def RESPONSE_ORDER : List String := ["logical", "creative", "skeptical", "practical"]

/-- `RESPONSE_ORDER_WITH_SYNTH` from `personas.py`. -/
def RESPONSE_ORDER_WITH_SYNTH : List String :=
  ["logical", "creative", "skeptical", "practical", "synthesizer"]

/-- A `MIXED_ASSIGNMENTS` entry: either the new dict format
`{"provider": ..., "model": ...}` (where the model key may be absent)
or the old plain provider string. -/
inductive Assignment where
  | withModel (provider : String) (model : Option String)
  | providerOnly (provider : String)
deriving DecidableEq, Repr

/-- `config.py` module values that the engine reads, gathered into one
record (the Python module is process-global; the engine only reads it). -/
structure Config where
  LLM_PROVIDER : String
  MIXED_ASSIGNMENTS : List (String × Assignment)
  MODELS : List (String × String)
  GROQ_API_KEY : String
  GOOGLE_API_KEY : String
  HUGGINGFACE_API_KEY : String
  MAX_ROUNDS : Nat
  ENABLE_SYNTHESIZER : Bool
  PERSONA_TEMPERATURES : List (String × Rat)

/-- The literal values of `config.py`. -/
def default_config : Config :=
  { LLM_PROVIDER := "mixed"
    MIXED_ASSIGNMENTS :=
      [ ("logical", .withModel "ollama" (some "llama3.2"))
      , ("skeptical", .withModel "ollama" (some "mistral"))
      , ("synthesizer", .withModel "ollama" (some "phi3"))
      , ("creative", .withModel "groq" (some "llama-3.3-70b-versatile"))
      , ("practical", .withModel "groq" (some "qwen/qwen3-32b")) ]
    MODELS :=
      [ ("ollama", "llama3.2"), ("groq", "llama-3.1-8b-instant")
      , ("google", "gemini-1.5-flash")
      , ("huggingface", "mistralai/Mistral-7B-Instruct-v0.3") ]
    GROQ_API_KEY := ""
    GOOGLE_API_KEY := ""
    HUGGINGFACE_API_KEY := ""
    MAX_ROUNDS := 3
    ENABLE_SYNTHESIZER := true
    PERSONA_TEMPERATURES :=
      [ ("logical", 3/10), ("creative", 8/10), ("skeptical", 5/10)
      , ("practical", 4/10), ("synthesizer", 3/10) ] }

/-- What a client constructor received, recording which backend instance
`create_client` built (provider kind, api key, resolved model). The
behaviour of the instance itself is external (`interp` below). -/
structure ClientSpec where
  provider : String
  api_key : String
  model : String
deriving DecidableEq, Repr

/-- `create_client` from `llm_clients.py`: dispatch on the provider kind
string, defaulting the model per constructor (`model or "..."` — the
empty string is falsy); unknown kinds raise
`ValueError(f"Unknown provider: ...")`. `OllamaClient` takes no api key. -/
def create_client (provider : String) (api_key : String) (model : String) :
    Except AppError ClientSpec :=
  if provider == "ollama" then
    .ok { provider := "ollama", api_key := ""
          model := if model == "" then "llama3.2" else model }
  else if provider == "groq" then
    .ok { provider := "groq", api_key
          model := if model == "" then "llama-3.1-8b-instant" else model }
  else if provider == "google" then
    .ok { provider := "google", api_key
          model := if model == "" then "gemini-1.5-flash" else model }
  else if provider == "huggingface" then
    .ok { provider := "huggingface", api_key
          model := if model == "" then "mistralai/Mistral-7B-Instruct-v0.3" else model }
  else
    .error (.configurationError
      ("Unknown provider: " ++ provider ++ ". Use: ollama, groq, google, huggingface"))

/-- `Discussion._get_api_key`: keyed lookup with default `""`. -/
def get_api_key (cfg : Config) (provider : String) : String :=
  if provider == "groq" then cfg.GROQ_API_KEY
  else if provider == "google" then cfg.GOOGLE_API_KEY
  else if provider == "huggingface" then cfg.HUGGINGFACE_API_KEY
  else if provider == "ollama" then ""
  else ""

/-- Resolve one `MIXED_ASSIGNMENTS` entry exactly as `_setup_clients`
does: dict format reads `provider` and `model` (defaulting the model from
`config.MODELS`, itself defaulting to `""`); old string format uses the
provider with the `config.MODELS` default. -/
def resolve_assignment (cfg : Config) (a : Assignment) : String × String :=
  match a with
  | .withModel provider model =>
      (provider, model.getD ((cfg.MODELS.lookup provider).getD ""))
  | .providerOnly provider =>
      (provider, (cfg.MODELS.lookup provider).getD "")

/-- One iteration of `_setup_clients`'s mixed-mode loop: resolve the
assignment, build the client, bind it to the persona key. -/
def setup_one (cfg : Config) (pa : String × Assignment) :
    Except AppError (String × ClientSpec) := do
  let (provider, model) := resolve_assignment cfg pa.2
  let c ← create_client provider (get_api_key cfg provider) model
  pure (pa.1, c)

/-- `Discussion._setup_clients`: in mixed mode, build one client per
assignment entry in insertion order, the first failure propagating; in
uniform mode, build a single client for `config.LLM_PROVIDER` and bind
it to every persona of the active speaking order. -/
def setup_clients (cfg : Config) : Except AppError (List (String × ClientSpec)) :=
  if cfg.LLM_PROVIDER == "mixed" then
    cfg.MIXED_ASSIGNMENTS.mapM (setup_one cfg)
  else do
    let provider := cfg.LLM_PROVIDER
    let c ← create_client provider (get_api_key cfg provider)
              ((cfg.MODELS.lookup provider).getD "")
    let order := if cfg.ENABLE_SYNTHESIZER then RESPONSE_ORDER_WITH_SYNTH
                 else RESPONSE_ORDER
    pure (order.map (fun k => (k, c)))

/-- `Discussion` dataclass state: the topic, the append-only transcript
and the per-persona client binding. Clients are carried as behaviours
(functions), bound at construction. -/
structure Discussion where
  user_input : String
  messages : List Message
  clients : List (String × Client)

/-- `Discussion(user_input=...)`: `__post_init__` runs `_setup_clients`,
so construction fails when client setup fails and otherwise starts with
an empty transcript. `interp` gives each constructed backend instance
its external behaviour. -/
def Discussion.create (cfg : Config) (interp : ClientSpec → Client)
    (user_input : String) : Except AppError Discussion :=
  (setup_clients cfg).map (fun specs =>
    { user_input, messages := []
      clients := specs.map (fun ks => (ks.1, interp ks.2)) })

/-- `Discussion._build_chat_history`: topic entry first, then one entry
per transcript message (role `assistant` iff authored by `for_persona`),
then the trailing self-directed instruction naming the persona.
`PERSONAS[for_persona]` raises `KeyError` on an unknown key, hence the
`Option`. -/
def build_chat_history (d : Discussion) (for_persona : String) :
    Option (List ChatEntry) :=
  (PERSONAS for_persona).map (fun persona =>
    { role := .user, content := "[User] " ++ d.user_input } ::
    d.messages.map (fun msg =>
      { role := if msg.persona_key == for_persona then Role.assistant else Role.user,
        content := "[" ++ msg.persona_name ++ "] " ++ msg.content }) ++
    [{ role := .user,
       content := "Now respond naturally as yourself (" ++ persona.name ++
         ") to this ongoing discussion. Keep it conversational and chat-like." }])

/-- Python `str.strip()` with no argument: drop leading and trailing
whitespace characters (modelled on the character list; `Char.isWhitespace`
plays the role of Python's whitespace test). -/
def py_strip (s : String) : String :=
  String.mk ((((s.data.dropWhile Char.isWhitespace).reverse).dropWhile
    Char.isWhitespace).reverse)

/-- `Discussion._generate_response`: look up persona, client and
temperature (default 0.5), build the history, call the backend, and wrap
the stripped text into a `Message` tagged with the round number. -/
def generate_response (cfg : Config) (d : Discussion) (persona_key : String)
    (round_num : Nat) : Except AppError Message :=
  match PERSONAS persona_key with
  | none => .error (.keyError persona_key)
  | some persona =>
    match d.clients.lookup persona_key with
    | none => .error (.keyError persona_key)
    | some client =>
      let temperature := (cfg.PERSONA_TEMPERATURES.lookup persona_key).getD (5/10)
      match build_chat_history d persona_key with
      | none => .error (.keyError persona_key)
      | some history =>
        (client persona.system_prompt history temperature).map (fun content =>
          { persona_key, persona_name := persona.name, emoji := persona.emoji
            content := py_strip content, round_num })

/-- The synthesizer skip test of `run_discussion`, mirroring the nested
`if persona_key == "synthesizer" and round_num < rounds: if round_num == 1:
continue`. -/
def skip_turn (rounds round_num : Nat) (persona_key : String) : Bool :=
  if persona_key == "synthesizer" && decide (round_num < rounds) then
    round_num == 1
  else false

/-- The (speaker, round) pairs the `run_discussion` loop visits, in
order: rounds 1..rounds, each iterating the speaking order minus the
skipped synthesizer turns. The skip test depends only on the loop
indices, so the schedule is independent of the evolving transcript. -/
def turn_schedule (order : List String) (rounds : Nat) : List (String × Nat) :=
  (List.range rounds).flatMap (fun i =>
    (order.filter (fun key => !skip_turn rounds (i + 1) key)).map
      (fun key => (key, i + 1)))

/-- Outcome of driving the `run_discussion` generator: the messages
yielded in order, the session state afterwards, and the error that
aborted the loop, if any. -/
structure RunResult where
  emitted : List Message
  final : Discussion
  error : Option AppError

/-- The generator body: take the turns in schedule order; each turn
generates a response, appends it to `self.messages` and yields it; a
backend failure propagates immediately, halting the loop with the
transcript as it stood. -/
def run_turn_list (cfg : Config) (d : Discussion) :
    List (String × Nat) → RunResult
  | [] => { emitted := [], final := d, error := none }
  | (key, r) :: rest =>
    match generate_response cfg d key r with
    | .error e => { emitted := [], final := d, error := some e }
    | .ok msg =>
      let d2 : Discussion :=
        { user_input := d.user_input, messages := d.messages ++ [msg]
          clients := d.clients }
      let res := run_turn_list cfg d2 rest
      { emitted := msg :: res.emitted, final := res.final, error := res.error }

/-- `rounds = rounds or config.MAX_ROUNDS`: `None` and `0` are falsy. -/
def resolve_rounds (cfg : Config) (rounds : Option Nat) : Nat :=
  match rounds with
  | none => cfg.MAX_ROUNDS
  | some 0 => cfg.MAX_ROUNDS
  | some n => n

/-- `Discussion.run_discussion(rounds=None)`: resolve the round count,
pick the speaking order from `config.ENABLE_SYNTHESIZER`, and drive the
loop. -/
def run_discussion (cfg : Config) (d : Discussion) (rounds : Option Nat) :
    RunResult :=
  let r := resolve_rounds cfg rounds
  let order := if cfg.ENABLE_SYNTHESIZER then RESPONSE_ORDER_WITH_SYNTH
               else RESPONSE_ORDER
  run_turn_list cfg d (turn_schedule order r)

/-- Python `"\n".join(lines)`. -/
def join_lines : List String → String
  | [] => ""
  | [s] => s
  | s :: rest => s ++ "\n" ++ join_lines rest

/-- `Discussion.get_transcript`: the `[User]` paragraph followed by one
`[emoji name]` paragraph per message, each paragraph ending in a newline,
joined with newlines. -/
def get_transcript (d : Discussion) : String :=
  join_lines
    (("[User]" ++ "\n" ++ d.user_input ++ "\n") ::
      d.messages.map (fun msg =>
        "[" ++ msg.emoji ++ " " ++ msg.persona_name ++ "]" ++ "\n" ++
          msg.content ++ "\n"))

/-- The fixed instruction template of `generate_summary`. -/
def SUMMARY_PROMPT : String :=
  "You are summarizing a group discussion. Based on the transcript, provide key points by participant, main disagreements, and areas of agreement. Keep it concise and well-organized. Use bullet points."

/-- `generate_summary`: serialize the transcript, pick the first client
of the binding mapping (`list(discussion.clients.values())[0]`, an
`IndexError` when empty), and return the backend text unchanged. -/
def generate_summary (d : Discussion) : Except AppError String :=
  let transcript := get_transcript d
  match d.clients with
  | [] => .error .indexError
  | c :: _ =>
    c.2 SUMMARY_PROMPT
      [{ role := .user,
         content := "Discussion transcript:" ++ "\n\n" ++ transcript ++
           "\n\n" ++ "Please summarize this discussion." }]
      (3/10)

/-- The fixed instruction template of `generate_takeaway`. -/
def TAKEAWAY_PROMPT : String :=
  "You are providing a final balanced takeaway from a group discussion. Write a calm, neutral conclusion that combines insights from all perspectives, does NOT claim there is one correct answer, clearly states uncertainties and trade-offs, and is helpful and actionable where possible. Keep it to 2-3 short paragraphs."

/-- `generate_takeaway`: same shape as `generate_summary` with the other
template. -/
def generate_takeaway (d : Discussion) : Except AppError String :=
  let transcript := get_transcript d
  match d.clients with
  | [] => .error .indexError
  | c :: _ =>
    c.2 TAKEAWAY_PROMPT
      [{ role := .user,
         content := "Discussion transcript:" ++ "\n\n" ++ transcript ++
           "\n\n" ++ "Provide a final balanced takeaway." }]
      (3/10)

/-! ## Transcript re-parsing

Modelled from the spec: the source defines no transcript parser; the
specification's round-trip property posits re-parsing the serialized
transcript into {speaker marker+name, content} pairs. The parser below
realises that: a line bracketed as `[...]` opens an entry whose header is
the bracketed text; subsequent lines up to the next header are the
entry's content, the single structural blank line that terminates each
serialized paragraph being dropped. -/

/-- Split a character sequence at every newline (the line list of a
string; always nonempty). -/
def splitLines : List Char → List (List Char)
  | [] => [[]]
  | c :: rest =>
    if c = '\n' then [] :: splitLines rest
    else
      match splitLines rest with
      | [] => [[c]]
      | l :: ls => (c :: l) :: ls

/-- The lines of a string. -/
def str_lines (s : String) : List String :=
  (splitLines s.data).map (fun cs => String.mk cs)

/-- A header line: bracketed as `[...]` with at least the two brackets. -/
def is_header_chars (cs : List Char) : Bool :=
  match cs with
  | '[' :: rest => rest ≠ [] && rest.getLast? == some ']'
  | _ => false

/-- The text between the brackets of a header line. -/
def header_inner (cs : List Char) : String :=
  String.mk ((cs.drop 1).dropLast)

/-- One step of the right-to-left scan: a header line closes the pending
content lines into an entry; any other line joins the pending content. -/
def parse_step (line : List Char)
    (acc : List (String × List (List Char)) × List (List Char)) :
    List (String × List (List Char)) × List (List Char) :=
  if is_header_chars line then ((header_inner line, acc.2) :: acc.1, [])
  else (acc.1, line :: acc.2)

/-- Reassemble an entry's content: drop the single structural blank line
that ends each serialized paragraph, then rejoin with newlines. -/
def unlines_content (ls : List (List Char)) : String :=
  join_lines ((if ls.getLast? = some [] then ls.dropLast else ls).map
    (fun cs => String.mk cs))

/-- Modelled from the spec: re-parse a serialized transcript into
{speaker marker+name, content} pairs. -/
def parse_transcript (text : String) : List (String × String) :=
  ((splitLines text.data).foldr parse_step ([], [])).1.map
    (fun e => (e.1, unlines_content e.2))

/-! ## `main.py` topic handling -/

/-- The line-accumulation loop of `get_user_input`: a second consecutive
empty line (or end of input) stops the read; the first empty line of a
pair is kept. -/
def user_input_lines : List String → Nat → List String
  | [], _ => []
  | line :: rest, empty_count =>
    if line == "" then
      if empty_count + 1 ≥ 2 then []
      else line :: user_input_lines rest (empty_count + 1)
    else line :: user_input_lines rest 0

/-- `get_user_input`: join the read lines and strip. -/
def get_user_input (stdin : List String) : String :=
  py_strip (join_lines (user_input_lines stdin 0))

/-- The topic-bearing inputs `main` can see: the contents of the `--file`
target when that flag was given, the positional topic when given, and
what interactive reading would produce. -/
structure MainArgs where
  file_contents : Option String
  topic : Option String
  stdin : List String

/-- `main`'s topic selection: `--file` contents are read and stripped;
otherwise a truthy positional topic is used as-is (an empty positional
topic is falsy and falls through); otherwise the interactive reader
runs. -/
def main_user_input (a : MainArgs) : String :=
  match a.file_contents with
  | some contents => py_strip contents
  | none =>
    match a.topic with
    | some t => if t == "" then get_user_input a.stdin else t
    | none => get_user_input a.stdin

/-- `main` after argument handling: reject a falsy topic
(`if not user_input`) with an error exit, else construct the session and
drive the discussion to completion. The returned `RunResult` exists only
when the topic passed the check and the session was constructed. -/
def main_flow (cfg : Config) (interp : ClientSpec → Client) (a : MainArgs) :
    Except AppError RunResult :=
  let user_input := main_user_input a
  if user_input == "" then .error .noTopicExit
  else
    (Discussion.create cfg interp user_input).map (fun d =>
      run_discussion cfg d none)

/-! ## Concrete backends and sessions used in scenario checks -/

/-- A backend that always answers the same text. -/
def constClient : Client := fun _ _ _ => .ok "ok"

/-- A backend whose answer records how many context entries it saw (as
a run of that many letters, so the answer is a plain string). -/
def histClient : Client := fun _ h _ => .ok (String.mk (List.replicate h.length 'a'))

/-- Bind one backend behaviour to every persona of the full order. -/
def mkClients (c : Client) : List (String × Client) :=
  RESPONSE_ORDER_WITH_SYNTH.map (fun k => (k, c))

/-- Bind an arbitrary total (never-failing) backend family to every
persona of the full order. -/
def mkTotalClients (gen : String → String → List ChatEntry → Rat → String) :
    List (String × Client) :=
  RESPONSE_ORDER_WITH_SYNTH.map (fun k => (k, fun sp h t => .ok (gen k sp h t)))

/-- The specification's scenario topic. -/
def scenario_topic : String := "Should companies adopt a 4-day work week?"

/-- The scenario session: fresh transcript, constant backend. -/
def dScenario : Discussion :=
  { user_input := scenario_topic, messages := [], clients := mkClients constClient }

/-- A fresh session over the history-revealing backend. -/
def dHist : Discussion :=
  { user_input := "T", messages := [], clients := mkClients histClient }

/-- A session whose skeptical backend always fails. -/
def dFail : Discussion :=
  { user_input := "T", messages := []
    clients := RESPONSE_ORDER_WITH_SYNTH.map (fun k =>
      (k, if k == "skeptical"
          then (fun _ _ _ => .error (.generationFailure "boom"))
          else constClient)) }

/-! ## Engine lemmas -/

/-- The run only ever appends: afterwards the transcript is the starting
transcript followed by exactly the emitted messages, whether or not an
error stopped the loop. -/
theorem run_turn_list_messages (cfg : Config) (d : Discussion)
    (turns : List (String × Nat)) :
    (run_turn_list cfg d turns).final.messages =
      d.messages ++ (run_turn_list cfg d turns).emitted := by
  induction turns generalizing d with
  | nil => simp [run_turn_list]
  | cons t rest ih =>
    obtain ⟨key, r⟩ := t
    cases h : generate_response cfg d key r with
    | error e => simp [run_turn_list, h]
    | ok msg =>
      simp [run_turn_list, h, ih]

/-- A successfully generated message carries the requested speaker key
and round number. -/
theorem generate_response_key_round {cfg : Config} {d : Discussion}
    {key : String} {r : Nat} {msg : Message}
    (h : generate_response cfg d key r = .ok msg) :
    msg.persona_key = key ∧ msg.round_num = r := by
  unfold generate_response at h
  cases hp : PERSONAS key with
  | none => simp only [hp] at h; exact Except.noConfusion h
  | some persona =>
    simp only [hp] at h
    cases hc : d.clients.lookup key with
    | none => simp only [hc] at h; exact Except.noConfusion h
    | some client =>
      simp only [hc] at h
      cases hh : build_chat_history d key with
      | none => simp only [hh] at h; exact Except.noConfusion h
      | some history =>
        simp only [hh] at h
        cases hg : client persona.system_prompt history
            ((cfg.PERSONA_TEMPERATURES.lookup key).getD (5/10)) with
        | error e => simp only [hg, Except.map] at h; exact Except.noConfusion h
        | ok content =>
          simp only [hg, Except.map, Except.ok.injEq] at h
          subst h
          exact ⟨rfl, rfl⟩

/-- Every emitted message corresponds to one of the scheduled turns. -/
theorem run_emitted_mem (cfg : Config) (d : Discussion)
    (turns : List (String × Nat)) :
    ∀ m ∈ (run_turn_list cfg d turns).emitted,
      (m.persona_key, m.round_num) ∈ turns := by
  induction turns generalizing d with
  | nil => simp [run_turn_list]
  | cons t rest ih =>
    obtain ⟨key, r⟩ := t
    cases h : generate_response cfg d key r with
    | error e => simp [run_turn_list, h]
    | ok msg =>
      intro m hm
      simp only [run_turn_list, h, List.mem_cons] at hm
      rcases hm with rfl | hm
      · obtain ⟨h1, h2⟩ := generate_response_key_round h
        simp [h1, h2]
      · exact List.mem_cons_of_mem _ (ih _ _ hm)

/-- The skip test, computed for the synthesizer. -/
theorem skip_turn_synth (rounds round_num : Nat) :
    skip_turn rounds round_num "synthesizer" =
      (decide (round_num < rounds) && (round_num == 1)) := by
  simp [skip_turn]

/-- The skip test never fires for another persona. -/
theorem skip_turn_other {key : String} (h : key ≠ "synthesizer")
    (rounds round_num : Nat) : skip_turn rounds round_num key = false := by
  simp [skip_turn, h]

/-- When at least two rounds are configured, round 1 has no synthesizer
turn in the schedule. -/
theorem synth_turn_not_scheduled {R : Nat} (hR : 2 ≤ R) :
    ("synthesizer", 1) ∉ turn_schedule RESPONSE_ORDER_WITH_SYNTH R := by
  intro hmem
  simp only [turn_schedule, List.mem_flatMap, List.mem_map, List.mem_filter,
    List.mem_range, Prod.mk.injEq] at hmem
  obtain ⟨i, _, key, ⟨_, hkeep⟩, hkey, hr⟩ := hmem
  subst hkey
  have hi : i = 0 := by omega
  subst hi
  rw [skip_turn_synth] at hkeep
  simp only [Bool.not_and, Bool.not_eq_true'] at hkeep
  simp at hkeep
  omega

/-! ## C1 -/

/-- C1 counterexample: in the specification's own scenario (R = 1,
synthesizer enabled, default order), the synthesizer is NOT suppressed:
`round_num < rounds` is false at R = 1, so the run yields 5 messages,
the last one spoken by the synthesizer and tagged round 1. -/
theorem C1_counterexample :
    (run_discussion default_config dScenario (some 1)).emitted.map
        (fun m => (m.persona_key, m.round_num)) =
      [("logical", 1), ("creative", 1), ("skeptical", 1), ("practical", 1),
       ("synthesizer", 1)] ∧
    (run_discussion default_config dScenario (some 1)).emitted.length = 5 := by
  constructor <;> rfl

/-- C1 amended: with the synthesizer enabled, no message with speaker
`synthesizer` and round 1 is produced whenever R ≥ 2; at R = 1 the
suppression does not apply and the scenario yields exactly 5 messages,
all tagged round 1, in persona order with the synthesizer last. -/
theorem C1_synth_round1 :
    (∀ (cfg : Config) (d : Discussion) (R : Nat),
      cfg.ENABLE_SYNTHESIZER = true → 2 ≤ R →
      ∀ m ∈ (run_discussion cfg d (some R)).emitted,
        ¬(m.persona_key = "synthesizer" ∧ m.round_num = 1)) ∧
    (run_discussion default_config dScenario (some 1)).emitted.map
        (fun m => (m.persona_key, m.round_num)) =
      [("logical", 1), ("creative", 1), ("skeptical", 1), ("practical", 1),
       ("synthesizer", 1)] := by
  refine ⟨?_, rfl⟩
  intro cfg d R hs hR m hm ⟨hkey, hround⟩
  have hres : resolve_rounds cfg (some R) = R := by
    match R, hR with
    | (n+2), _ => rfl
  rw [run_discussion, hres, hs] at hm
  simp only [if_pos rfl] at hm
  have := run_emitted_mem cfg d _ m hm
  rw [hkey, hround] at this
  exact synth_turn_not_scheduled hR this

/-- Witness for C1: the first message of an R = 2 run is not a
round-1 synthesizer message. -/
theorem C1_synth_round1_witness :
    ¬((((run_discussion default_config dScenario (some 2)).emitted.head!).persona_key
        = "synthesizer") ∧
      ((run_discussion default_config dScenario (some 2)).emitted.head!).round_num = 1) :=
  C1_synth_round1.1 default_config dScenario 2 rfl (by omega)
    ((run_discussion default_config dScenario (some 2)).emitted.head!)
    (List.head!_mem_self (by decide))

/-! ## C2: message-count formula -/

/-- Looking up any persona of the full order among totally-bound clients
succeeds with its bound behaviour. -/
theorem lookup_mkTotalClients
    (gen : String → String → List ChatEntry → Rat → String) {k : String}
    (hk : k ∈ RESPONSE_ORDER_WITH_SYNTH) :
    (mkTotalClients gen).lookup k = some (fun sp h t => .ok (gen k sp h t)) := by
  fin_cases hk <;> rfl

/-- Against a never-failing backend family, every turn of a persona in
the full order generates successfully. -/
theorem generate_response_total (cfg : Config)
    (gen : String → String → List ChatEntry → Rat → String)
    (u : String) (msgs : List Message) {k : String}
    (hk : k ∈ RESPONSE_ORDER_WITH_SYNTH) (r : Nat) :
    ∃ msg, generate_response cfg
      { user_input := u, messages := msgs, clients := mkTotalClients gen } k r
      = .ok msg := by
  fin_cases hk <;>
    exact ⟨_, rfl⟩

/-- Against a never-failing backend family, the loop completes every
scheduled turn. -/
theorem run_total_length (cfg : Config)
    (gen : String → String → List ChatEntry → Rat → String) (u : String)
    (turns : List (String × Nat))
    (hturns : ∀ p ∈ turns, p.1 ∈ RESPONSE_ORDER_WITH_SYNTH) :
    ∀ msgs, (run_turn_list cfg
      { user_input := u, messages := msgs, clients := mkTotalClients gen }
      turns).emitted.length = turns.length := by
  induction turns with
  | nil => intro msgs; rfl
  | cons t rest ih =>
    intro msgs
    obtain ⟨key, r⟩ := t
    have hk : key ∈ RESPONSE_ORDER_WITH_SYNTH := hturns (key, r) (by simp)
    obtain ⟨msg, hmsg⟩ := generate_response_total cfg gen u msgs hk r
    have ih' := ih (fun p hp => hturns p (List.mem_cons_of_mem _ hp))
      (msgs ++ [msg])
    simp only [run_turn_list, hmsg, List.length_cons]
    rw [ih']

/-- Every scheduled turn's speaker comes from the iterated order. -/
theorem turn_schedule_keys (order : List String) (R : Nat) :
    ∀ p ∈ turn_schedule order R, p.1 ∈ order := by
  intro p hp
  simp only [turn_schedule, List.mem_flatMap, List.mem_map, List.mem_filter]
    at hp
  obtain ⟨i, _, key, ⟨hkey, _⟩, rfl⟩ := hp
  exact hkey

/-- Mapped sums over `range'` starting at 1 see only nonzero indices. -/
theorem sum_map_range'_of_ne_zero (f : Nat → Nat) (c : Nat)
    (hf : ∀ i, i ≠ 0 → f i = c) :
    ∀ (n s : Nat), 1 ≤ s → ((List.range' s n).map f).sum = c * n := by
  intro n
  induction n with
  | zero => intro s _; simp
  | succ n ih =>
    intro s hs
    rw [List.range'_succ, List.map_cons, List.sum_cons,
      ih (s+1) (by omega), hf s (by omega)]
    ring

/-- Per-round headcount of the synthesizer-inclusive order: 4 speakers
in round 1 when a later round exists, otherwise all 5. -/
theorem filter_headcount_synth (R i : Nat) :
    ((RESPONSE_ORDER_WITH_SYNTH.filter
      (fun key => !skip_turn R (i+1) key))).length =
    if i = 0 ∧ 1 < R then 4 else 5 := by
  have h1 : skip_turn R (i+1) "logical" = false := skip_turn_other (by decide) _ _
  have h2 : skip_turn R (i+1) "creative" = false := skip_turn_other (by decide) _ _
  have h3 : skip_turn R (i+1) "skeptical" = false := skip_turn_other (by decide) _ _
  have h4 : skip_turn R (i+1) "practical" = false := skip_turn_other (by decide) _ _
  by_cases hc : i = 0 ∧ 1 < R
  · obtain ⟨hi, hR⟩ := hc
    subst hi
    have h5 : skip_turn R 1 "synthesizer" = true := by
      rw [skip_turn_synth]; simp; omega
    simp [RESPONSE_ORDER_WITH_SYNTH, List.filter, h1, h2, h3, h4, h5, hR]
  · have h5 : skip_turn R (i+1) "synthesizer" = false := by
      rw [skip_turn_synth]
      rcases Decidable.not_and_iff_or_not.mp hc with hi | hR
      · have : ((i+1) == 1) = false := by
          simp only [beq_eq_false_iff_ne, ne_eq]
          omega
        simp [this]
      · have : decide (i + 1 < R) = false := by simp; omega
        simp [this]
    simp [RESPONSE_ORDER_WITH_SYNTH, List.filter, h1, h2, h3, h4, h5, hc]

/-- Per-round headcount of the synthesizer-free order: always 4. -/
theorem filter_headcount_no_synth (R i : Nat) :
    ((RESPONSE_ORDER.filter (fun key => !skip_turn R (i+1) key))).length = 4 := by
  have h1 : skip_turn R (i+1) "logical" = false := skip_turn_other (by decide) _ _
  have h2 : skip_turn R (i+1) "creative" = false := skip_turn_other (by decide) _ _
  have h3 : skip_turn R (i+1) "skeptical" = false := skip_turn_other (by decide) _ _
  have h4 : skip_turn R (i+1) "practical" = false := skip_turn_other (by decide) _ _
  simp [RESPONSE_ORDER, List.filter, h1, h2, h3, h4]

/-- Length of the full schedule with the synthesizer: `5R` minus one
when the round-1 suppression fires (`1 < R`). -/
theorem turn_schedule_length_synth (R : Nat) :
    (turn_schedule RESPONSE_ORDER_WITH_SYNTH R).length =
      5 * R - (if 1 < R then 1 else 0) := by
  rw [turn_schedule, List.length_flatMap]
  cases R with
  | zero => simp
  | succ n =>
    rw [List.range_eq_range', List.range'_succ, List.map_cons, List.sum_cons]
    have hhead : (List.length ∘ fun i =>
        (List.map (fun key => (key, i + 1))
          (RESPONSE_ORDER_WITH_SYNTH.filter
            (fun key => !skip_turn (n+1) (i+1) key)))) 0
        = if 1 < n + 1 then 4 else 5 := by
      simp only [Function.comp_apply, List.length_map]
      rw [filter_headcount_synth]
      simp
    have htail : ((List.range' 1 n).map (List.length ∘ fun i =>
        (List.map (fun key => (key, i + 1))
          (RESPONSE_ORDER_WITH_SYNTH.filter
            (fun key => !skip_turn (n+1) (i+1) key))))).sum = 5 * n := by
      apply sum_map_range'_of_ne_zero _ _ _ n 1 le_rfl
      intro i hi
      simp only [Function.comp_apply, List.length_map]
      rw [filter_headcount_synth]
      simp [hi]
    rw [hhead, htail]
    by_cases h : 1 < n + 1 <;> simp [h] <;> omega

/-- Length of the full schedule without the synthesizer: always `4R`. -/
theorem turn_schedule_length_no_synth (R : Nat) :
    (turn_schedule RESPONSE_ORDER R).length = 4 * R := by
  rw [turn_schedule, List.length_flatMap]
  have hconst : ∀ i ∈ List.range R, (List.length ∘ fun i =>
      (List.map (fun key => (key, i + 1))
        (RESPONSE_ORDER.filter (fun key => !skip_turn R (i+1) key)))) i
      = (fun _ => 4) i := by
    intro i _
    simp only [Function.comp_apply, List.length_map]
    exact filter_headcount_no_synth R i
  rw [List.map_congr_left hconst]
  simp [List.map_const, Nat.mul_comm]

/-- A positive explicit round count resolves to itself. -/
theorem resolve_rounds_pos (cfg : Config) {R : Nat} (h : 1 ≤ R) :
    resolve_rounds cfg (some R) = R := by
  match R, h with
  | (n+1), _ => rfl

/-- Speakers of the reduced order also belong to the full order. -/
theorem mem_order_of_mem_no_synth {k : String} (h : k ∈ RESPONSE_ORDER) :
    k ∈ RESPONSE_ORDER_WITH_SYNTH := by
  fin_cases h <;> simp [RESPONSE_ORDER_WITH_SYNTH]

/-- C2 confirmed: against any never-failing backend family, a run with
R ≥ 1 rounds emits `5R` messages minus one exactly when the transition
rule suppressed the synthesizer in round 1 (synthesizer enabled), and
`4R` messages when the synthesizer is disabled. -/
theorem C2_message_count (cfg : Config)
    (gen : String → String → List ChatEntry → Rat → String) (u : String)
    (R : Nat) (hR : 1 ≤ R) :
    (cfg.ENABLE_SYNTHESIZER = true →
      (run_discussion cfg
        { user_input := u, messages := [], clients := mkTotalClients gen }
        (some R)).emitted.length
        = 5 * R - (if skip_turn R 1 "synthesizer" then 1 else 0)) ∧
    (cfg.ENABLE_SYNTHESIZER = false →
      (run_discussion cfg
        { user_input := u, messages := [], clients := mkTotalClients gen }
        (some R)).emitted.length = 4 * R) := by
  constructor
  · intro hs
    rw [run_discussion, resolve_rounds_pos cfg hR, hs]
    simp only [if_true]
    rw [run_total_length cfg gen u _ (turn_schedule_keys _ R) []]
    rw [turn_schedule_length_synth, skip_turn_synth]
    simp
  · intro hs
    rw [run_discussion, resolve_rounds_pos cfg hR, hs]
    rw [if_neg Bool.false_ne_true]
    rw [run_total_length cfg gen u _
      (fun p hp => mem_order_of_mem_no_synth (turn_schedule_keys _ R p hp)) []]
    exact turn_schedule_length_no_synth R

/-- Witness for C2 at R = 2 with a constant backend: 9 messages. -/
theorem C2_message_count_witness :
    (run_discussion default_config
      { user_input := "T", messages := []
        clients := mkTotalClients (fun _ _ _ _ => "ok") }
      (some 2)).emitted.length
      = 5 * 2 - (if skip_turn 2 1 "synthesizer" then 1 else 0) :=
  (C2_message_count default_config (fun _ _ _ _ => "ok") "T" 2 (by decide)).1 rfl

/-! ## C3: context assembly -/

/-- C3 confirmed: for a valid speaker S the built context is the topic
entry, then one entry per transcript message in order (assistant role
exactly for S's own messages, user role otherwise), then the trailing
instruction naming S — total length transcript + 2. -/
theorem C3_context_assembly (d : Discussion) (S : String) (p : Persona)
    (hS : PERSONAS S = some p) :
    ∃ hist, build_chat_history d S = some hist ∧
      hist.length = d.messages.length + 2 ∧
      hist.head? = some { role := .user, content := "[User] " ++ d.user_input } ∧
      (hist.drop 1).take d.messages.length =
        d.messages.map (fun msg =>
          { role := if msg.persona_key == S then Role.assistant else Role.user,
            content := "[" ++ msg.persona_name ++ "] " ++ msg.content }) ∧
      hist.getLast? = some
        { role := .user,
          content := "Now respond naturally as yourself (" ++ p.name ++
            ") to this ongoing discussion. Keep it conversational and chat-like." } := by
  have hb : build_chat_history d S = some
      ({ role := Role.user, content := "[User] " ++ d.user_input } ::
        d.messages.map (fun msg =>
          { role := if msg.persona_key == S then Role.assistant else Role.user,
            content := "[" ++ msg.persona_name ++ "] " ++ msg.content }) ++
        [{ role := Role.user,
           content := "Now respond naturally as yourself (" ++ p.name ++
             ") to this ongoing discussion. Keep it conversational and chat-like." }]) := by
    rw [build_chat_history, hS]
    rfl
  refine ⟨_, hb, ?_, rfl, ?_, ?_⟩
  · simp [List.length_append]
  · show List.take d.messages.length
      (d.messages.map (fun msg =>
        ({ role := if msg.persona_key == S then Role.assistant else Role.user,
           content := "[" ++ msg.persona_name ++ "] " ++ msg.content } : ChatEntry)) ++
        [{ role := Role.user,
           content := "Now respond naturally as yourself (" ++ p.name ++
             ") to this ongoing discussion. Keep it conversational and chat-like." }])
      = d.messages.map (fun msg =>
        ({ role := if msg.persona_key == S then Role.assistant else Role.user,
           content := "[" ++ msg.persona_name ++ "] " ++ msg.content } : ChatEntry))
    rw [← List.length_map d.messages (fun msg =>
        ({ role := if msg.persona_key == S then Role.assistant else Role.user,
           content := "[" ++ msg.persona_name ++ "] " ++ msg.content } : ChatEntry))]
    exact List.take_left _ _
  · show (({ role := Role.user, content := "[User] " ++ d.user_input } ::
      d.messages.map (fun msg =>
        ({ role := if msg.persona_key == S then Role.assistant else Role.user,
           content := "[" ++ msg.persona_name ++ "] " ++ msg.content } : ChatEntry))) ++
      [({ role := Role.user,
          content := "Now respond naturally as yourself (" ++ p.name ++
            ") to this ongoing discussion. Keep it conversational and chat-like." } : ChatEntry)]).getLast?
      = some ({ role := Role.user,
                content := "Now respond naturally as yourself (" ++ p.name ++
                  ") to this ongoing discussion. Keep it conversational and chat-like." } : ChatEntry)
    exact List.getLast?_concat _

/-- Witness for C3 at a one-message session and speaker `logical`. -/
theorem C3_context_assembly_witness :
    ∃ hist, build_chat_history
      { user_input := "T"
        messages := [{ persona_key := "logical", persona_name := "Logical Thinker",
                       emoji := "🧠", content := "hi", round_num := 1 }]
        clients := [] } "logical" = some hist ∧
      hist.length = 1 + 2 ∧
      hist.head? = some { role := .user, content := "[User] " ++ "T" } ∧
      (hist.drop 1).take 1 =
        [{ role := Role.assistant, content := "[" ++ "Logical Thinker" ++ "] " ++ "hi" }] ∧
      hist.getLast? = some
        { role := .user,
          content := "Now respond naturally as yourself (" ++ "Logical Thinker" ++
            ") to this ongoing discussion. Keep it conversational and chat-like." } := by
  obtain ⟨hist, h1, h2, h3, h4, h5⟩ := C3_context_assembly
    { user_input := "T"
      messages := [{ persona_key := "logical", persona_name := "Logical Thinker",
                     emoji := "🧠", content := "hi", round_num := 1 }]
      clients := [] } "logical"
    { name := "Logical Thinker", emoji := "🧠",
      system_prompt := "You are participating in a casual group chat discussion with friends. Your thinking style is LOGICAL and STRUCTURED." }
    rfl
  exact ⟨hist, h1, h2, h3, by simpa using h4, h5⟩

/-! ## C4: re-invocation accumulates -/

/-- C4 counterexample: running the same session twice does not reproduce
the first run. With a backend that reports its context length, the second
invocation's messages differ from the first invocation's (its contexts
include the first run's messages) and the session ends holding both runs'
messages (10, not 5). -/
theorem C4_counterexample :
    (run_discussion default_config
        (run_discussion default_config dHist (some 1)).final (some 1)).emitted ≠
      (run_discussion default_config dHist (some 1)).emitted ∧
    (run_discussion default_config
        (run_discussion default_config dHist (some 1)).final
        (some 1)).final.messages.length = 10 := by
  constructor
  · decide
  · rfl

/-- C4 amended: re-invoking `run_discussion` on the same session appends
to the existing transcript instead of starting fresh: after any second
invocation the session's transcript is the first invocation's final
transcript followed by the second invocation's emitted messages (and each
invocation appends exactly its own emissions). -/
theorem C4_rerun_accumulates (cfg : Config) (d : Discussion)
    (rounds1 rounds2 : Option Nat) :
    (run_discussion cfg (run_discussion cfg d rounds1).final rounds2).final.messages
      = (run_discussion cfg d rounds1).final.messages ++
        (run_discussion cfg (run_discussion cfg d rounds1).final rounds2).emitted ∧
    (run_discussion cfg d rounds1).final.messages
      = d.messages ++ (run_discussion cfg d rounds1).emitted := by
  exact ⟨run_turn_list_messages cfg _ _, run_turn_list_messages cfg _ _⟩

/-! ## C10: falsy round count -/

/-- C10 confirmed: a round count of 0 (or `None`) is falsy in
`rounds or config.MAX_ROUNDS`, so the run silently uses the configured
default and, against a working backend at the default configuration
(`MAX_ROUNDS = 3`), produces 14 messages — not zero. -/
theorem C10_falsy_rounds :
    (∀ (cfg : Config) (d : Discussion),
      run_discussion cfg d (some 0) = run_discussion cfg d (some cfg.MAX_ROUNDS) ∧
      run_discussion cfg d none = run_discussion cfg d (some cfg.MAX_ROUNDS)) ∧
    (run_discussion default_config dScenario (some 0)).emitted.length = 14 ∧
    (run_discussion default_config dScenario none).emitted.length = 14 := by
  refine ⟨fun cfg d => ?_, rfl, rfl⟩
  have h : resolve_rounds cfg (some 0) = resolve_rounds cfg (some cfg.MAX_ROUNDS) := by
    cases hM : cfg.MAX_ROUNDS <;> simp [resolve_rounds, hM]
  have h' : resolve_rounds cfg (none : Option Nat)
      = resolve_rounds cfg (some cfg.MAX_ROUNDS) := by
    cases hM : cfg.MAX_ROUNDS <;> simp [resolve_rounds, hM]
  constructor
  · unfold run_discussion
    rw [h]
  · unfold run_discussion
    rw [h']

/-! ## C9: atomicity on turn failure -/

/-- If the loop stops with an error, some scheduled turn failed: the
schedule splits around that turn, exactly one message per earlier turn
was emitted, and the failing turn's generation call on the final state
is the recorded error. -/
theorem run_error_spec (cfg : Config) :
    ∀ (turns : List (String × Nat)) (d : Discussion) (e : AppError),
      (run_turn_list cfg d turns).error = some e →
      ∃ pre key r post, turns = pre ++ (key, r) :: post ∧
        (run_turn_list cfg d turns).emitted.length = pre.length ∧
        generate_response cfg (run_turn_list cfg d turns).final key r = .error e := by
  intro turns
  induction turns with
  | nil => intro d e h; exact absurd h (by simp [run_turn_list])
  | cons t rest ih =>
    intro d e h
    obtain ⟨key, r⟩ := t
    cases hg : generate_response cfg d key r with
    | error e' =>
      simp only [run_turn_list, hg, Option.some.injEq] at h
      subst h
      refine ⟨[], key, r, rest, rfl, ?_, ?_⟩
      · simp [run_turn_list, hg]
      · simp only [run_turn_list, hg]
    | ok msg =>
      simp only [run_turn_list, hg] at h
      obtain ⟨pre, key', r', post, hsplit, hlen, hfail⟩ := ih _ e h
      refine ⟨(key, r) :: pre, key', r', post, by rw [hsplit]; rfl, ?_, ?_⟩
      · simp only [run_turn_list, hg, List.length_cons, hlen]
      · simp only [run_turn_list, hg]
        exact hfail

/-- C9 confirmed: a backend failure halts the loop at its turn — the
transcript afterwards is exactly the starting transcript plus the
messages emitted before the failing turn, nothing partial is appended
for the failing turn and nothing earlier is discarded. -/
theorem C9_failure_atomicity (cfg : Config) (d : Discussion)
    (rounds : Option Nat) :
    (run_discussion cfg d rounds).final.messages
      = d.messages ++ (run_discussion cfg d rounds).emitted ∧
    ∀ e, (run_discussion cfg d rounds).error = some e →
      ∃ pre key r post,
        turn_schedule
            (if cfg.ENABLE_SYNTHESIZER then RESPONSE_ORDER_WITH_SYNTH
             else RESPONSE_ORDER)
            (resolve_rounds cfg rounds)
          = pre ++ (key, r) :: post ∧
        (run_discussion cfg d rounds).emitted.length = pre.length ∧
        generate_response cfg (run_discussion cfg d rounds).final key r
          = .error e :=
  ⟨run_turn_list_messages cfg d _, fun e h => run_error_spec cfg _ d e h⟩

/-- Witness for C9: with a skeptical backend that always fails, the
R = 1 run stops at the third turn with two messages appended. -/
theorem C9_failure_atomicity_witness :
    (run_discussion default_config dFail (some 1)).final.messages
      = dFail.messages ++ (run_discussion default_config dFail (some 1)).emitted ∧
    ∃ pre key r post,
      turn_schedule
          (if default_config.ENABLE_SYNTHESIZER then RESPONSE_ORDER_WITH_SYNTH
           else RESPONSE_ORDER)
          (resolve_rounds default_config (some 1))
        = pre ++ (key, r) :: post ∧
      (run_discussion default_config dFail (some 1)).emitted.length = pre.length ∧
      generate_response default_config (run_discussion default_config dFail (some 1)).final key r
        = .error (.generationFailure "boom") :=
  ⟨(C9_failure_atomicity default_config dFail (some 1)).1,
   (C9_failure_atomicity default_config dFail (some 1)).2
     (.generationFailure "boom") rfl⟩

/-! ## C5: unknown backend kind -/

/-- The supported backend kinds of `create_client`. -/
def SUPPORTED_PROVIDERS : List String :=
  ["ollama", "groq", "google", "huggingface"]

/-- `create_client` succeeds on every supported kind. -/
theorem create_client_supported {p : String} (h : p ∈ SUPPORTED_PROVIDERS)
    (k m : String) : ∃ c, create_client p k m = .ok c := by
  fin_cases h <;> exact ⟨_, rfl⟩

/-- `create_client` rejects every unsupported kind, naming it. -/
theorem create_client_unsupported {p : String}
    (h : p ∉ SUPPORTED_PROVIDERS) (k m : String) :
    create_client p k m = .error (.configurationError
      ("Unknown provider: " ++ p ++ ". Use: ollama, groq, google, huggingface")) := by
  simp only [SUPPORTED_PROVIDERS, List.mem_cons, List.not_mem_nil, or_false,
    not_or] at h
  obtain ⟨h1, h2, h3, h4⟩ := h
  simp [create_client, h1, h2, h3, h4]

/-- A mixed-mode entry whose resolved kind is supported sets up fine. -/
theorem setup_one_ok {cfg : Config} {pa : String × Assignment}
    (h : (resolve_assignment cfg pa.2).1 ∈ SUPPORTED_PROVIDERS) :
    ∃ kc, setup_one cfg pa = .ok kc := by
  rcases hr : resolve_assignment cfg pa.2 with ⟨prov, mod⟩
  rw [hr] at h
  obtain ⟨c, hc⟩ := create_client_supported h (get_api_key cfg prov) mod
  exact ⟨(pa.1, c), by simp [setup_one, hr, hc]⟩

/-- A mixed-mode entry whose resolved kind is unsupported fails, naming
the kind. -/
theorem setup_one_error {cfg : Config} {pa : String × Assignment}
    (h : (resolve_assignment cfg pa.2).1 ∉ SUPPORTED_PROVIDERS) :
    setup_one cfg pa = .error (.configurationError
      ("Unknown provider: " ++ (resolve_assignment cfg pa.2).1 ++
        ". Use: ollama, groq, google, huggingface")) := by
  rcases hr : resolve_assignment cfg pa.2 with ⟨prov, mod⟩
  rw [hr] at h
  simp [setup_one, hr, create_client_unsupported h (get_api_key cfg prov) mod]

/-- Resolving a mixed assignment list containing an unsupported kind
fails with a configuration error naming some unsupported kind. -/
theorem mapM_setup_error (cfg : Config) :
    ∀ (l : List (String × Assignment)),
      (∃ pa ∈ l, (resolve_assignment cfg pa.2).1 ∉ SUPPORTED_PROVIDERS) →
      ∃ p, p ∉ SUPPORTED_PROVIDERS ∧
        l.mapM (setup_one cfg) = .error (.configurationError
          ("Unknown provider: " ++ p ++ ". Use: ollama, groq, google, huggingface")) := by
  intro l
  induction l with
  | nil => rintro ⟨pa, hmem, _⟩; exact absurd hmem (List.not_mem_nil pa)
  | cons a rest ih =>
    rintro ⟨pa, hmem, hbad⟩
    by_cases ha : (resolve_assignment cfg a.2).1 ∈ SUPPORTED_PROVIDERS
    · have hrest : pa ∈ rest := by
        rcases List.mem_cons.mp hmem with rfl | h
        · exact absurd ha hbad
        · exact h
      obtain ⟨p, hp, herr⟩ := ih ⟨pa, hrest, hbad⟩
      obtain ⟨kc, hkc⟩ := setup_one_ok ha
      refine ⟨p, hp, ?_⟩
      rw [List.mapM_cons, hkc, herr]
      rfl
    · refine ⟨(resolve_assignment cfg a.2).1, ha, ?_⟩
      rw [List.mapM_cons, setup_one_error ha]
      rfl

/-- C5 confirmed: an unsupported backend kind — in mixed mode on any
assignment entry, or in uniform mode as the global provider — makes
client setup, and therefore session construction, fail with the
configuration error naming an offending kind; no session (hence no
message) is produced. The specification's scenario kind
`"unknown-provider"` is checked concretely. -/
theorem C5_unknown_provider :
    (∀ (cfg : Config), cfg.LLM_PROVIDER = "mixed" →
      (∃ pa ∈ cfg.MIXED_ASSIGNMENTS,
        (resolve_assignment cfg pa.2).1 ∉ SUPPORTED_PROVIDERS) →
      ∃ p, p ∉ SUPPORTED_PROVIDERS ∧
        (∀ (interp : ClientSpec → Client) (u : String),
          Discussion.create cfg interp u = .error (.configurationError
            ("Unknown provider: " ++ p ++ ". Use: ollama, groq, google, huggingface")))) ∧
    (∀ (cfg : Config), cfg.LLM_PROVIDER ≠ "mixed" →
      cfg.LLM_PROVIDER ∉ SUPPORTED_PROVIDERS →
      ∀ (interp : ClientSpec → Client) (u : String),
        Discussion.create cfg interp u = .error (.configurationError
          ("Unknown provider: " ++ cfg.LLM_PROVIDER ++
            ". Use: ollama, groq, google, huggingface"))) := by
  constructor
  · intro cfg hmix hbad
    obtain ⟨p, hp, herr⟩ := mapM_setup_error cfg cfg.MIXED_ASSIGNMENTS hbad
    refine ⟨p, hp, fun interp u => ?_⟩
    have hset : setup_clients cfg = .error (.configurationError
        ("Unknown provider: " ++ p ++ ". Use: ollama, groq, google, huggingface")) := by
      rw [setup_clients, if_pos (by simp [hmix]), herr]
    simp [Discussion.create, hset, Except.map]
  · intro cfg hne hns interp u
    have hset : setup_clients cfg = .error (.configurationError
        ("Unknown provider: " ++ cfg.LLM_PROVIDER ++
          ". Use: ollama, groq, google, huggingface")) := by
      rw [setup_clients, if_neg (by simp [hne])]
      simp only [create_client_unsupported hns]
      rfl
    simp [Discussion.create, hset, Except.map]

/-- The specification's C5 scenario configuration: the kind
`"unknown-provider"` assigned to a persona. -/
def bad_provider_config : Config :=
  { default_config with
    MIXED_ASSIGNMENTS := [("logical", .withModel "unknown-provider" none)] }

/-- Witness for C5 at the scenario configuration: construction fails
naming `"unknown-provider"`. -/
theorem C5_unknown_provider_witness :
    ∃ p, p ∉ SUPPORTED_PROVIDERS ∧
      (∀ (interp : ClientSpec → Client) (u : String),
        Discussion.create bad_provider_config interp u = .error (.configurationError
          ("Unknown provider: " ++ p ++ ". Use: ollama, groq, google, huggingface"))) :=
  C5_unknown_provider.1 bad_provider_config rfl
    ⟨("logical", .withModel "unknown-provider" none), by
      simp [bad_provider_config], by decide⟩

/-! ## C6: empty-topic rejection -/

/-- C6 counterexample: the whitespace-only topic `"   "` is empty after
trimming, yet when supplied directly on the command line it is NOT
rejected — `main` only tests `if not user_input` on the untrimmed
string, so the session is constructed and all 14 backend turns run. -/
theorem C6_counterexample :
    py_strip "   " = "" ∧
    (main_flow default_config (fun _ => constClient)
      { file_contents := none, topic := some "   ", stdin := [] }).map
        (fun r => r.emitted.length) = .ok 14 := by
  exact ⟨rfl, rfl⟩

/-- C6 amended: an empty (falsy) topic is rejected with the no-topic
error exit before any session is created or backend called; topics read
from a file (or interactively) are trimmed first, so a whitespace-only
file topic is rejected too; but a whitespace-only topic passed directly
as the positional argument is not trimmed and not rejected — the run
proceeds to session creation. There is no dedicated EmptyInputError
type; the rejection is an error-print-and-exit in `main`. -/
theorem C6_empty_topic :
    (∀ (cfg : Config) (interp : ClientSpec → Client) (a : MainArgs),
      main_user_input a = "" → main_flow cfg interp a = .error .noTopicExit) ∧
    (∀ (cfg : Config) (interp : ClientSpec → Client) (contents : String)
        (topic : Option String) (stdin : List String),
      py_strip contents = "" →
      main_flow cfg interp { file_contents := some contents, topic, stdin }
        = .error .noTopicExit) ∧
    (∀ (cfg : Config) (interp : ClientSpec → Client) (t : String)
        (stdin : List String), t ≠ "" →
      main_flow cfg interp { file_contents := none, topic := some t, stdin }
        = (Discussion.create cfg interp t).map (fun d => run_discussion cfg d none)) := by
  refine ⟨fun cfg interp a h => ?_, fun cfg interp contents topic stdin h => ?_,
    fun cfg interp t stdin h => ?_⟩
  · rw [main_flow, h]
    rfl
  · have : main_user_input { file_contents := some contents, topic, stdin } = "" := h
    rw [main_flow, this]
    rfl
  · have hmu : main_user_input { file_contents := none, topic := some t, stdin } = t := by
      simp only [main_user_input]
      rw [if_neg (by simp [h])]
    rw [main_flow, hmu, if_neg (by simp [h])]

/-- Witness for C6 at a whitespace-only file topic and an ordinary
positional topic. -/
theorem C6_empty_topic_witness :
    main_flow default_config (fun _ => constClient)
      { file_contents := some "  ", topic := none, stdin := [] }
      = .error .noTopicExit ∧
    main_flow default_config (fun _ => constClient)
      { file_contents := none, topic := some "T", stdin := [] }
      = (Discussion.create default_config (fun _ => constClient) "T").map
          (fun d => run_discussion default_config d none) :=
  ⟨C6_empty_topic.2.1 default_config (fun _ => constClient) "  " none [] rfl,
   C6_empty_topic.2.2 default_config (fun _ => constClient) "T" [] (by decide)⟩

/-! ## C7: post-processors -/

/-- A session whose only backend returns text padded with whitespace. -/
def dPad : Discussion :=
  { user_input := "T", messages := []
    clients := [("logical", fun _ _ _ => .ok " x ")] }

/-- C7 counterexample: the post-processors return the backend text
verbatim — `" x "` comes back with its surrounding whitespace, so the
claimed minimum trim does not happen. -/
theorem C7_counterexample :
    generate_summary dPad = .ok " x " ∧
    generate_takeaway dPad = .ok " x " ∧
    py_strip " x " ≠ " x " := by
  exact ⟨rfl, rfl, by decide⟩

/-- C7 amended: both post-processors send the serialized full transcript
to the first entry in insertion order of the binding mapping — the
result does not depend on the remaining entries — and return the
backend's generated text verbatim, with no whitespace trimming. -/
theorem C7_post_processors (u : String) (msgs : List Message) (k : String)
    (c : Client) (rest rest' : List (String × Client)) (s : String) :
    (generate_summary { user_input := u, messages := msgs, clients := (k, c) :: rest }
      = generate_summary { user_input := u, messages := msgs, clients := (k, c) :: rest' } ∧
     generate_takeaway { user_input := u, messages := msgs, clients := (k, c) :: rest }
      = generate_takeaway { user_input := u, messages := msgs, clients := (k, c) :: rest' }) ∧
    (generate_summary { user_input := u, messages := msgs
                        clients := (k, fun _ _ _ => Except.ok s) :: rest } = .ok s ∧
     generate_takeaway { user_input := u, messages := msgs
                         clients := (k, fun _ _ _ => Except.ok s) :: rest } = .ok s) ∧
    (generate_summary { user_input := u, messages := msgs, clients := (k, c) :: rest }
      = c SUMMARY_PROMPT
          [{ role := .user
             content := "Discussion transcript:" ++ "\n\n" ++
               get_transcript { user_input := u, messages := msgs, clients := (k, c) :: rest } ++
               "\n\n" ++ "Please summarize this discussion." }]
          (3/10) ∧
     generate_takeaway { user_input := u, messages := msgs, clients := (k, c) :: rest }
      = c TAKEAWAY_PROMPT
          [{ role := .user
             content := "Discussion transcript:" ++ "\n\n" ++
               get_transcript { user_input := u, messages := msgs, clients := (k, c) :: rest } ++
               "\n\n" ++ "Provide a final balanced takeaway." }]
          (3/10)) :=
  ⟨⟨rfl, rfl⟩, ⟨rfl, rfl⟩, rfl, rfl⟩

/-! ## C8: transcript round-trip -/

/-- Splitting never returns an empty list of lines. -/
theorem splitLines_ne_nil (cs : List Char) : splitLines cs ≠ [] := by
  induction cs with
  | nil => simp [splitLines]
  | cons c rest ih =>
    by_cases hc : c = '\n'
    · simp [splitLines, hc]
    · cases h : splitLines rest with
      | nil => simp [splitLines, hc, h]
      | cons l ls => simp [splitLines, hc, h]

/-- A newline-free character sequence is a single line. -/
theorem splitLines_no_newline {cs : List Char} (h : '\n' ∉ cs) :
    splitLines cs = [cs] := by
  induction cs with
  | nil => rfl
  | cons c rest ih =>
    have hc : ¬c = '\n' := fun hce => h (List.mem_cons.mpr (Or.inl hce.symm))
    have hrest : '\n' ∉ rest := fun hr => h (List.mem_cons.mpr (Or.inr hr))
    simp [splitLines, hc, ih hrest]

/-- Splitting distributes over a newline placed between two sequences. -/
theorem splitLines_append_newline (x y : List Char) :
    splitLines (x ++ '\n' :: y) = splitLines x ++ splitLines y := by
  induction x with
  | nil => simp [splitLines]
  | cons c rest ih =>
    by_cases hc : c = '\n'
    · subst hc
      simp [splitLines, ih]
    · cases h : splitLines rest with
      | nil => exact absurd h (splitLines_ne_nil rest)
      | cons l ls =>
        simp [splitLines, hc, ih, h]

/-- `join_lines` on a cons with a nonempty tail inserts one newline. -/
theorem join_lines_cons (s : String) {l : List String} (h : l ≠ []) :
    join_lines (s :: l) = s ++ "\n" ++ join_lines l := by
  cases l with
  | nil => exact absurd rfl h
  | cons a as => rfl

/-- Rejoining the lines of a sequence restores it (characters). -/
theorem join_mk_splitLines_data (cs : List Char) :
    (join_lines ((splitLines cs).map (fun l => String.mk l))).data = cs := by
  induction cs with
  | nil => rfl
  | cons c rest ih =>
    by_cases hc : c = '\n'
    · subst hc
      have hne : (splitLines rest).map (fun l => String.mk l) ≠ [] := by
        simp [splitLines_ne_nil rest]
      rw [show splitLines ('\n' :: rest) = [] :: splitLines rest by simp [splitLines]]
      rw [List.map_cons, join_lines_cons _ hne]
      rw [String.data_append, String.data_append]
      rw [ih]
      rfl
    · cases h : splitLines rest with
      | nil => exact absurd h (splitLines_ne_nil rest)
      | cons l ls =>
        rw [show splitLines (c :: rest) = (c :: l) :: ls by simp [splitLines, hc, h]]
        rw [h, List.map_cons] at ih
        cases ls with
        | nil =>
          simp only [List.map_nil, join_lines] at ih ⊢
          rw [ih]
        | cons a as =>
          have hne : (a :: as).map (fun l => String.mk l) ≠ [] := by simp
          rw [join_lines_cons _ hne, String.data_append, String.data_append] at ih
          rw [List.map_cons, join_lines_cons _ hne, String.data_append,
            String.data_append]
          rw [show (String.mk (c :: l)).data = c :: l from rfl]
          rw [show (String.mk l).data = l from rfl] at ih
          rw [show ("\n" : String).data = ['\n'] from rfl] at ih ⊢
          rw [← ih]
          simp

/-- Splitting a serialized paragraph (`header ++ "\n" ++ body ++ "\n"`)
yields the header line, the body's lines, and the structural blank
line. -/
theorem splitLines_entry (h c : String) (hh : '\n' ∉ h.data) :
    splitLines ((h ++ "\n" ++ c ++ "\n").data)
      = h.data :: (splitLines c.data ++ [[]]) := by
  have hd : (h ++ "\n" ++ c ++ "\n").data
      = h.data ++ '\n' :: (c.data ++ '\n' :: []) := by
    simp [String.data_append]
  rw [hd, splitLines_append_newline, splitLines_no_newline hh,
    splitLines_append_newline]
  rfl

/-- The lines of a newline-join are the concatenated lines of the
parts. -/
theorem splitLines_join (l : List String) (hne : l ≠ []) :
    splitLines ((join_lines l).data)
      = l.flatMap (fun s => splitLines s.data) := by
  induction l with
  | nil => exact absurd rfl hne
  | cons s rest ih =>
    cases rest with
    | nil => simp [join_lines]
    | cons a as =>
      rw [join_lines_cons s (by simp)]
      have hd : (s ++ "\n" ++ join_lines (a :: as)).data
          = s.data ++ '\n' :: (join_lines (a :: as)).data := by
        simp [String.data_append]
      rw [hd, splitLines_append_newline, ih (by simp)]
      simp

/-- Non-header lines only accumulate into the pending content. -/
theorem foldr_parse_content (ls : List (List Char))
    (h : ∀ l ∈ ls, is_header_chars l = false)
    (es : List (String × List (List Char))) (pend : List (List Char)) :
    List.foldr parse_step (es, pend) ls = (es, ls ++ pend) := by
  induction ls with
  | nil => rfl
  | cons l rest ih =>
    rw [List.foldr_cons, ih (fun x hx => h x (List.mem_cons_of_mem _ hx))]
    simp [parse_step, h l (List.mem_cons_self _ _)]

/-- Scanning a flattened sequence of blocks (header line followed by
non-header content lines) recovers exactly one entry per block. -/
theorem foldr_parse_flatten (blocks : List (List Char × List (List Char)))
    (h : ∀ b ∈ blocks, is_header_chars b.1 = true ∧
      ∀ l ∈ b.2, is_header_chars l = false) :
    List.foldr parse_step ([], []) (blocks.flatMap (fun b => b.1 :: b.2))
      = (blocks.map (fun b => (header_inner b.1, b.2)), []) := by
  induction blocks with
  | nil => rfl
  | cons b rest ih =>
    obtain ⟨hb, hbc⟩ := h b (List.mem_cons_self _ _)
    rw [List.flatMap_cons, List.foldr_append,
      ih (fun x hx => h x (List.mem_cons_of_mem _ hx)),
      List.foldr_cons, foldr_parse_content b.2 hbc]
    simp [parse_step, hb]

/-- Reassembling a block's content (body lines plus the structural blank
line) restores the serialized body. -/
theorem unlines_content_block (c : String) :
    unlines_content (splitLines c.data ++ [[]]) = c := by
  rw [unlines_content, List.getLast?_concat, if_pos rfl, List.dropLast_concat]
  exact String.ext (join_mk_splitLines_data c.data)

/-- The character data of a message header. -/
theorem msg_header_data (e n : String) :
    ("[" ++ e ++ " " ++ n ++ "]").data
      = '[' :: (e.data ++ ' ' :: n.data ++ [']']) := by
  simp [String.data_append]

/-- The header test computed on a bracketed line. -/
theorem is_header_chars_cons (rest : List Char) :
    is_header_chars ('[' :: rest) = (rest ≠ [] && rest.getLast? == some ']') := rfl

/-- A message header line passes the header test. -/
theorem is_header_msg (e n : String) :
    is_header_chars (("[" ++ e ++ " " ++ n ++ "]").data) = true := by
  rw [msg_header_data, is_header_chars_cons]
  have h1 : (e.data ++ ' ' :: n.data ++ [']']) ≠ [] := by simp
  have h2 : (e.data ++ ' ' :: n.data ++ [']']).getLast? = some ']' := by
    rw [show e.data ++ ' ' :: n.data ++ [']'] = (e.data ++ ' ' :: n.data) ++ [']']
      by simp]
    exact List.getLast?_concat _
  rw [h2]
  simp [h1]

/-- The bracketed text of a message header is `emoji ++ " " ++ name`. -/
theorem header_inner_msg (e n : String) :
    header_inner (("[" ++ e ++ " " ++ n ++ "]").data) = e ++ " " ++ n := by
  rw [msg_header_data, header_inner]
  apply String.ext
  show ((e.data ++ ' ' :: n.data ++ [']']).dropLast) = (e ++ " " ++ n).data
  rw [show e.data ++ ' ' :: n.data ++ [']'] = (e.data ++ ' ' :: n.data) ++ [']']
    by simp]
  rw [List.dropLast_concat]
  simp [String.data_append]

/-- A message header line contains no newline when the emoji and name
contain none. -/
theorem msg_header_no_newline {e n : String} (he : '\n' ∉ e.data)
    (hn : '\n' ∉ n.data) : '\n' ∉ ("[" ++ e ++ " " ++ n ++ "]").data := by
  rw [msg_header_data]
  intro hmem
  simp only [List.mem_cons, List.mem_append, List.mem_singleton,
    List.not_mem_nil, or_false] at hmem
  rcases hmem with h | h | h
  · exact absurd h (by decide)
  · rcases h with h | h | h
    · exact he h
    · exact absurd h (by decide)
    · exact hn h
  · exact absurd h (by decide)

/-- `flatMap` after `map` composes. -/
theorem flatMap_map_eq {α β γ : Type} (f : α → β) (g : β → List γ)
    (l : List α) : (l.map f).flatMap g = l.flatMap (fun x => g (f x)) := by
  induction l with
  | nil => rfl
  | cons a as ih => simp [List.flatMap_cons, ih]

/-- Pointwise-equal functions give equal `flatMap`s. -/
theorem flatMap_congr_mem {α β : Type} {f g : α → List β} (l : List α)
    (h : ∀ x ∈ l, f x = g x) : l.flatMap f = l.flatMap g := by
  induction l with
  | nil => rfl
  | cons a as ih =>
    rw [List.flatMap_cons, List.flatMap_cons, h a (List.mem_cons_self _ _),
      ih (fun x hx => h x (List.mem_cons_of_mem _ hx))]

/-- C8 amended: serializing with `get_transcript` and re-parsing into
{speaker marker+name, content} pairs recovers the topic and every
message's marker, name and content in order — provided no line of the
topic or of any message content is itself bracket-delimited like a
header, and no emoji or display name contains a newline. -/
theorem C8_parse_roundtrip (d : Discussion)
    (hu : ∀ l ∈ splitLines d.user_input.data, is_header_chars l = false)
    (hm : ∀ m ∈ d.messages,
      (∀ l ∈ splitLines m.content.data, is_header_chars l = false) ∧
      '\n' ∉ m.emoji.data ∧ '\n' ∉ m.persona_name.data) :
    parse_transcript (get_transcript d)
      = ("User", d.user_input) ::
        d.messages.map (fun m => (m.emoji ++ " " ++ m.persona_name, m.content)) := by
  have hsplit : splitLines ((get_transcript d).data)
      = ((("[User]" : String).data, splitLines d.user_input.data ++ [[]]) ::
          d.messages.map (fun m =>
            (("[" ++ m.emoji ++ " " ++ m.persona_name ++ "]").data,
             splitLines m.content.data ++ [[]]))).flatMap (fun b => b.1 :: b.2) := by
    rw [show get_transcript d = join_lines
        (("[User]" ++ "\n" ++ d.user_input ++ "\n") ::
          d.messages.map (fun msg =>
            "[" ++ msg.emoji ++ " " ++ msg.persona_name ++ "]" ++ "\n" ++
              msg.content ++ "\n")) from rfl]
    rw [splitLines_join _ (by simp), List.flatMap_cons, List.flatMap_cons]
    congr 1
    · exact splitLines_entry "[User]" d.user_input (by decide)
    · rw [flatMap_map_eq, flatMap_map_eq]
      apply flatMap_congr_mem
      intro m hmem
      obtain ⟨_, he, hn⟩ := hm m hmem
      exact splitLines_entry ("[" ++ m.emoji ++ " " ++ m.persona_name ++ "]")
        m.content (msg_header_no_newline he hn)
  have hblocks : ∀ b ∈ ((("[User]" : String).data,
        splitLines d.user_input.data ++ [[]]) ::
      d.messages.map (fun m =>
        (("[" ++ m.emoji ++ " " ++ m.persona_name ++ "]").data,
         splitLines m.content.data ++ [[]]))),
      is_header_chars b.1 = true ∧ ∀ l ∈ b.2, is_header_chars l = false := by
    intro b hb
    rcases List.mem_cons.mp hb with rfl | hb
    · refine ⟨rfl, fun l hl => ?_⟩
      rcases List.mem_append.mp hl with hl | hl
      · exact hu l hl
      · rw [List.mem_singleton.mp hl]
        rfl
    · obtain ⟨m, hmem, rfl⟩ := List.mem_map.mp hb
      obtain ⟨hcontent, _, _⟩ := hm m hmem
      refine ⟨is_header_msg _ _, fun l hl => ?_⟩
      rcases List.mem_append.mp hl with hl | hl
      · exact hcontent l hl
      · rw [List.mem_singleton.mp hl]
        rfl
  rw [parse_transcript, hsplit, foldr_parse_flatten _ hblocks]
  simp only [List.map_cons, List.map_map, Function.comp_apply]
  congr 1
  · rw [show header_inner (("[User]" : String).data) = "User" from rfl,
      unlines_content_block]
  · apply List.map_congr_left
    intro m hmem
    simp only [Function.comp_apply]
    rw [header_inner_msg, unlines_content_block]

/-- A session whose single message embeds a header-like line in its
content. -/
def dAmbig1 : Discussion :=
  { user_input := "T"
    messages := [{ persona_key := "logical", persona_name := "Logical Thinker",
                   emoji := "🧠", content := "x\n\n[🎨 Creative Thinker]\ny",
                   round_num := 1 }]
    clients := [] }

/-- A different session — two messages — with the same serialization. -/
def dAmbig2 : Discussion :=
  { user_input := "T"
    messages := [{ persona_key := "logical", persona_name := "Logical Thinker",
                   emoji := "🧠", content := "x", round_num := 1 },
                 { persona_key := "creative", persona_name := "Creative Thinker",
                   emoji := "🎨", content := "y", round_num := 1 }]
    clients := [] }

/-- C8 counterexample: `get_transcript` is not injective on session
states — a one-message session whose content embeds a header-like line
serializes identically to a two-message session with different
name/content sequences, so no re-parser can recover every appended
message's name and content for every state; on that state the modelled
re-parser indeed returns the wrong pairs. -/
theorem C8_counterexample :
    get_transcript dAmbig1 = get_transcript dAmbig2 ∧
    dAmbig1.messages.map (fun m => (m.persona_name, m.content)) ≠
      dAmbig2.messages.map (fun m => (m.persona_name, m.content)) ∧
    parse_transcript (get_transcript dAmbig1) ≠
      ("User", dAmbig1.user_input) ::
        dAmbig1.messages.map (fun m => (m.emoji ++ " " ++ m.persona_name, m.content)) := by
  refine ⟨by decide, by decide, by decide⟩

/-- Witness for C8 at a two-message session with multi-line and empty
contents. -/
theorem C8_parse_roundtrip_witness :
    parse_transcript (get_transcript
      { user_input := "Topic"
        messages := [{ persona_key := "logical", persona_name := "Logical Thinker",
                       emoji := "🧠", content := "hello\nworld", round_num := 1 },
                     { persona_key := "creative", persona_name := "Creative Thinker",
                       emoji := "🎨", content := "", round_num := 1 }]
        clients := [] })
      = ("User", "Topic") ::
        List.map (fun m : Message => (m.emoji ++ " " ++ m.persona_name, m.content))
          ([{ persona_key := "logical", persona_name := "Logical Thinker",
              emoji := "🧠", content := "hello\nworld", round_num := 1 },
            { persona_key := "creative", persona_name := "Creative Thinker",
              emoji := "🎨", content := "", round_num := 1 }] : List Message) :=
  C8_parse_roundtrip
    { user_input := "Topic"
      messages := [{ persona_key := "logical", persona_name := "Logical Thinker",
                     emoji := "🧠", content := "hello\nworld", round_num := 1 },
                   { persona_key := "creative", persona_name := "Creative Thinker",
                     emoji := "🎨", content := "", round_num := 1 }]
      clients := [] }
    (by decide) (by decide)

end MultiLLM
